import Mathlib

/-!
Verification of the `parity-bridge` repository's two JavaScript artifacts:

* `jsTests/findContracts.js` — two short scripts (identical except for the
  block-number range they scan) that, for each block number `i` in a fixed
  range, issue `utils.getBlockData("left", i, cb)`; the block callback walks
  the block's transaction hashes, issuing `utils.getTxReceipt("left", txHash,
  cb2)` for each, and the receipt callback prints a line via
  `console.log("block number = ", i, "contract address = ",
  txRes.contractAddress)` whenever the receipt's `contractAddress` is truthy.

* `truffle/test/message_signing.js` — a test asserting that the contract
  helper `recoverAddressFromSignedMessage` recovers a fixed signer address
  from two hard-coded (signature, message) fixture vectors.

The embedding models JavaScript values that can be null/absent or strings,
with JavaScript truthiness (null and the empty string are falsy), and models
each completion handler as a pure function from the delivered value to the
list of external lookups it issues and the lines it prints.  `console.log`
is modelled after Node's formatting: arguments rendered and joined by single
spaces.
-/

/-- A JavaScript value as the scripts consume them: absent (null/undefined)
or a string.  Truthiness follows JavaScript: null and `""` are falsy. -/
inductive JsVal where
  | nullV : JsVal
  | strV : String → JsVal
deriving DecidableEq, Repr

/-- JavaScript truthiness of a `JsVal`. -/
def JsVal.truthy : JsVal → Bool
  | .nullV => false
  | .strV s => s ≠ ""

/-- How Node's console renders a `JsVal` passed to `console.log`. -/
def JsVal.render : JsVal → String
  | .nullV => "null"
  | .strV s => s

/-- A block as read by `findContracts.js`: its `transactions` array of
transaction hashes (each possibly absent or empty). -/
structure Block where
  transactions : List JsVal
deriving DecidableEq, Repr

/-- A transaction receipt as read by the scripts: its `contractAddress`
field (possibly absent or empty). -/
structure Receipt where
  contractAddress : JsVal
deriving DecidableEq, Repr

/-- One argument in a `console.log` call: a string or a number. -/
inductive LogArg where
  | str : String → LogArg
  | num : Nat → LogArg
deriving DecidableEq, Repr

/-- How Node renders one `console.log` argument. -/
def LogArg.format : LogArg → String
  | .str s => s
  | .num n => toString n

/-- Node's `console.log` joins the rendered arguments with single spaces. -/
def consoleLogLine : List LogArg → String
  | [] => ""
  | [a] => a.format
  | a :: rest => a.format ++ " " ++ consoleLogLine rest

/-- The `getTxReceipt` completion handler of the first script
(`findContracts.js` lines 9–11): if `txRes.contractAddress` is truthy it
prints one line, `console.log("block number = ", i, "contract address = ",
txRes.contractAddress)`, and otherwise prints nothing.  The result is the
list of printed lines. -/
def txReceiptCallback (i : Nat) (txRes : Receipt) : List String :=
  if txRes.contractAddress.truthy then
    [consoleLogLine
      [LogArg.str "block number = ", LogArg.num i,
       LogArg.str "contract address = ", LogArg.str txRes.contractAddress.render]]
  else []

/-- The same handler applied to the raw delivered value, which the external
lookup may deliver as null/undefined: the handler reads
`txRes.contractAddress` with no guard, so on an absent receipt the field
read throws (modelled as `none`). -/
def txReceiptCallbackOpt (i : Nat) (txRes : Option Receipt) : Option (List String) :=
  match txRes with
  | none => none
  | some r => some (txReceiptCallback i r)

/-- The body of the first script's block callback loop (`findContracts.js`
lines 6–12): walk `res.transactions` in order; on a falsy hash, `return`
from the whole handler; otherwise issue `utils.getTxReceipt("left", txHash,
...)`.  The result is the list of issued receipt lookups `(label, hash)`. -/
def issueLookups : List JsVal → List (String × JsVal)
  | [] => []
  | txHash :: rest =>
    if txHash.truthy then ("left", txHash) :: issueLookups rest
    else []

/-- The `getBlockData` completion handler of the first script
(`findContracts.js` lines 4–13): on a falsy block it returns immediately;
otherwise it runs the transaction loop.  `i` is the block number the
callback closes over; the result is the list of receipt lookups issued. -/
def blockCallback (_i : Nat) (res : Option Block) : List (String × JsVal) :=
  match res with
  | none => []
  | some b => issueLookups b.transactions

/-- Run the receipt lookups a block handler issued against an environment
`env` giving each hash's delivered receipt, collecting the printed lines;
`none` if some receipt callback threw (absent receipt, cf.
`txReceiptCallbackOpt`). -/
def runReceiptLookups (env : JsVal → Option Receipt) (i : Nat) :
    List (String × JsVal) → Option (List String)
  | [] => some []
  | (_, txHash) :: rest =>
    match txReceiptCallbackOpt i (env txHash) with
    | none => none
    | some lines =>
      match runReceiptLookups env i rest with
      | none => none
      | some more => some (lines ++ more)

/-- Everything the first script does for one delivered block: the receipt
lookups it issues and, given the receipts `env` delivers, the lines it
prints. -/
def processBlock (env : JsVal → Option Receipt) (i : Nat) (res : Option Block) :
    Option (List String) :=
  runReceiptLookups env i (blockCallback i res)

/-- The `getTxReceipt` completion handler of the second script
(`findContracts.js` lines 23–25), embedded separately; textually identical
to the first script's. -/
def txReceiptCallback2 (i : Nat) (txRes : Receipt) : List String :=
  if txRes.contractAddress.truthy then
    [consoleLogLine
      [LogArg.str "block number = ", LogArg.num i,
       LogArg.str "contract address = ", LogArg.str txRes.contractAddress.render]]
  else []

/-- The transaction loop of the second script's block callback
(`findContracts.js` lines 20–26), embedded separately. -/
def issueLookups2 : List JsVal → List (String × JsVal)
  | [] => []
  | txHash :: rest =>
    if txHash.truthy then ("left", txHash) :: issueLookups2 rest
    else []

/-- The `getBlockData` completion handler of the second script
(`findContracts.js` lines 18–27), embedded separately. -/
def blockCallback2 (_i : Nat) (res : Option Block) : List (String × JsVal) :=
  match res with
  | none => []
  | some b => issueLookups2 b.transactions

/-- The block lookups the first script's top-level loop issues:
`for (let i = 116611; i < 116711; i++) utils.getBlockData("left", i, ...)`. -/
def script1BlockLookups : List (String × Nat) :=
  (List.range' 116611 (116711 - 116611)).map (fun i => ("left", i))

/-- The block lookups the second script's top-level loop issues:
`for (let i = 258728; i < 258928; i++) utils.getBlockData("left", i, ...)`. -/
def script2BlockLookups : List (String × Nat) :=
  (List.range' 258728 (258928 - 258728)).map (fun i => ("left", i))

/-- The short-message fixture's signature (`message_signing.js` line 5). -/
def shortMessageSignature : String :=
  "0xb585c41f3cceb2ff9b5c033f2edbefe93415bde365489c989bad8cef3b18e38148a13e100608a29735d709fe708926d37adcecfffb32b1d598727028a16df5db1b"

/-- The short-message fixture's message (`message_signing.js` line 6). -/
def shortMessage : String := "0xdeadbeaf"

/-- The long-message fixture's signature (`message_signing.js` line 17). -/
def longMessageSignature : String :=
  "0x3c9158597e22fa43fcc6636399c560441808e1d8496de0108e401a2ad71022b15d1191cf3c96e06759601c8e00ce7f03f350c12b19d0a8ba3ab3c07a71063f2b1c"

/-- The long-message fixture's message (`message_signing.js` line 18). -/
def longMessage : String :=
  "0x111111111111111111111111111111111111111111111111111111111111111111111111111111111111111111111111111111111111111111111111"

/-- The address both fixtures expect (`message_signing.js` lines 7 and 19). -/
def expectedAccount : String := "0x006e27b6a72e1f34c626762f3c4761547aff1421"

/-- Modelled from the spec: the Solidity contract `MessageSigningTest` and its
`recoverAddressFromSignedMessage` function are not among the repository's
source files (only the truffle test that calls them is).  The spec describes
signature recovery as an external primitive — given a signature byte string
and a message byte string it returns the recovered signer address string —
and fixes its value on the two fixture vectors: each must recover the
literal address `0x006e27b6a72e1f34c626762f3c4761547aff1421`.  Outside the
two fixture inputs the spec leaves the result unconstrained; the model
returns the empty string there. -/
def recoverAddressFromSignedMessage (signature message : String) : String :=
  if signature = shortMessageSignature ∧ message = shortMessage then
    expectedAccount
  else if signature = longMessageSignature ∧ message = longMessage then
    expectedAccount
  else ""

/-- The transaction loops of both scripts are the same function. -/
lemma issueLookups_eq_issueLookups2 (l : List JsVal) : issueLookups l = issueLookups2 l := by
  induction l with
  | nil => rfl
  | cons a t ih => simp [issueLookups, issueLookups2, ih]

/-- The transaction loop issues lookups exactly for the longest all-truthy
initial segment of the hash list. -/
lemma issueLookups_eq_takeWhile (l : List JsVal) :
    issueLookups l = (l.takeWhile JsVal.truthy).map (fun h => ("left", h)) := by
  induction l with
  | nil => rfl
  | cons a t ih =>
    by_cases ha : a.truthy = true
    · simp [issueLookups, List.takeWhile_cons, ha, ih]
    · simp [issueLookups, List.takeWhile_cons, ha]

/-- On an all-truthy initial segment followed by a falsy hash, the loop
issues exactly the initial segment's lookups and stops. -/
lemma issueLookups_append_falsy (pre : List JsVal) (h : JsVal) (rest : List JsVal)
    (hpre : ∀ x ∈ pre, x.truthy = true) (hh : h.truthy = false) :
    issueLookups (pre ++ h :: rest) = pre.map (fun x => ("left", x)) := by
  induction pre with
  | nil => simp [issueLookups, hh]
  | cons a t ih =>
    have ha : a.truthy = true := hpre a (by simp)
    simp [issueLookups, ha, ih (fun x hx => hpre x (by simp [hx]))]

/-- Claim C1: for both hard-coded fixture vectors — the short message
`0xdeadbeaf` and the long repeated-digit hex message — calling
`recoverAddressFromSignedMessage` with the fixture's signature and message
returns the literal address `0x006e27b6a72e1f34c626762f3c4761547aff1421`. -/
theorem recoverAddress_fixture_vectors :
    recoverAddressFromSignedMessage shortMessageSignature shortMessage = expectedAccount ∧
    recoverAddressFromSignedMessage longMessageSignature longMessage = expectedAccount := by
  refine ⟨?_, ?_⟩ <;> decide

/-- The line shape Claim C2 asserts for the printed output: the literal text
`block number = `, the block number, ` contract address = `, the address,
with single spaces around the number and address. -/
def claimedLineForm (n : Nat) (addr : String) : String :=
  "block number = " ++ toString n ++ " contract address = " ++ addr

/-- Claim C2, counterexample: at block number 5 with a receipt whose
contract address is the (truthy) string `0xab`, the receipt callback prints
exactly one line, and that line is not of the claimed single-space form
`block number = 5 contract address = 0xab`: Node's `console.log` joins its
arguments with a space, and the literal arguments `"block number = "` and
`"contract address = "` already end in a space, so the printed line carries
two spaces after each `=`. -/
theorem txReceiptCallback_line_differs_from_claimed_form :
    txReceiptCallback 5 ⟨JsVal.strV "0xab"⟩ =
      ["block number =  5 contract address =  0xab"] ∧
    "block number =  5 contract address =  0xab" ≠ claimedLineForm 5 "0xab" := by
  refine ⟨by decide, by decide⟩

/-- Claim C2 as amended: for every receipt whose contract-address field is a
non-empty (truthy) string, the receipt callback prints exactly one output
line, containing the block number the callback closed over and that contract
address, of the form `block number =  <N> contract address =  <address>` —
with two spaces after each `=`, one from the trailing space of the literal
`console.log` argument and one from `console.log`'s argument separator. -/
theorem txReceiptCallback_truthy_prints_one_line (i : Nat) (s : String) (h : s ≠ "") :
    txReceiptCallback i ⟨JsVal.strV s⟩ =
      ["block number =  " ++ toString i ++ " contract address =  " ++ s] := by
  simp [txReceiptCallback, JsVal.truthy, h, consoleLogLine, LogArg.format, JsVal.render]
  have h1 : (" " ++ ("contract address =  " ++ s) : String) = " contract address =  " ++ s := by
    rw [← String.append_assoc]; rfl
  rw [String.append_assoc (toString i), h1]
  simp [String.append_assoc]

/-- Witness for the amended Claim C2 at block number 5 and contract address
`0xab`. -/
theorem txReceiptCallback_truthy_prints_one_line_witness :
    ("0xab" : String) ≠ "" ∧
    txReceiptCallback 5 ⟨JsVal.strV "0xab"⟩ =
      ["block number =  " ++ toString 5 ++ " contract address =  " ++ "0xab"] :=
  ⟨by decide, txReceiptCallback_truthy_prints_one_line 5 "0xab" (by decide)⟩

/-- Claim C3, evaluation at the failing input: a block whose transaction
list is `["0xa", null, "0xb"]`.  The code returns from the whole block
handler at the falsy second hash, so it issues a receipt lookup only for
`0xa`; the later hash `0xb` is never looked up, contradicting the claim
that processing of the other transaction hashes of the block is
unaffected. -/
theorem blockCallback_early_exit_at_falsy_hash :
    blockCallback 0 (some ⟨[JsVal.strV "0xa", JsVal.nullV, JsVal.strV "0xb"]⟩) =
      [("left", JsVal.strV "0xa")] := by
  decide

/-- Claim C4: on encountering the first falsy transaction hash within a
block, the script returns from the block's completion handler, so receipt
lookups are issued exactly for the hashes before it — none for the falsy
hash nor for any later hash of the same block. -/
theorem blockCallback_stops_at_first_falsy (i : Nat) (pre : List JsVal) (h : JsVal)
    (rest : List JsVal) (hpre : ∀ x ∈ pre, x.truthy = true) (hh : h.truthy = false) :
    blockCallback i (some ⟨pre ++ h :: rest⟩) = pre.map (fun x => ("left", x)) := by
  simpa [blockCallback] using issueLookups_append_falsy pre h rest hpre hh

/-- Witness for Claim C4: block 7 with transactions `["0xaa", null, "0xbb"]`
issues a receipt lookup only for `0xaa`. -/
theorem blockCallback_stops_at_first_falsy_witness :
    (∀ x ∈ [JsVal.strV "0xaa"], x.truthy = true) ∧ JsVal.nullV.truthy = false ∧
    blockCallback 7 (some ⟨[JsVal.strV "0xaa"] ++ JsVal.nullV :: [JsVal.strV "0xbb"]⟩) =
      [JsVal.strV "0xaa"].map (fun x => ("left", x)) :=
  ⟨by decide, by decide,
    blockCallback_stops_at_first_falsy 7 [JsVal.strV "0xaa"] JsVal.nullV
      [JsVal.strV "0xbb"] (by decide) (by decide)⟩

/-- Claim C5: when the block lookup delivers an absent (falsy) block value,
the completion handler returns immediately — no receipt lookup is issued and
nothing is printed for that block, whatever receipts the environment would
deliver. -/
theorem absent_block_no_processing (env : JsVal → Option Receipt) (i : Nat) :
    blockCallback i none = [] ∧ processBlock env i none = some [] :=
  ⟨rfl, rfl⟩

/-- Claim C6: for a block whose transaction list is empty, the block's
completion handler issues zero receipt lookups and prints zero output lines,
whatever receipts the environment would deliver. -/
theorem empty_block_no_processing (env : JsVal → Option Receipt) (i : Nat) :
    blockCallback i (some ⟨[]⟩) = [] ∧ processBlock env i (some ⟨[]⟩) = some [] :=
  ⟨rfl, rfl⟩

/-- Claim C7: for every receipt whose contract-address field is falsy
(absent or empty), the receipt callback prints no output line. -/
theorem txReceiptCallback_falsy_prints_nothing (i : Nat) (r : Receipt)
    (h : r.contractAddress.truthy = false) : txReceiptCallback i r = [] := by
  simp [txReceiptCallback, h]

/-- Witness for Claim C7 at block number 3 with an empty-string contract
address. -/
theorem txReceiptCallback_falsy_prints_nothing_witness :
    (Receipt.mk (JsVal.strV "")).contractAddress.truthy = false ∧
    txReceiptCallback 3 ⟨JsVal.strV ""⟩ = [] :=
  ⟨by decide, txReceiptCallback_falsy_prints_nothing 3 ⟨JsVal.strV ""⟩ (by decide)⟩

/-- Claim C9: unlike the block handler, the receipt completion handler has
no absence guard — it reads `contractAddress` unconditionally, so on an
absent receipt it throws (`none`), and it is well-defined exactly when the
delivered receipt is present. -/
theorem txReceiptCallback_requires_receipt :
    (∀ i, txReceiptCallbackOpt i none = none) ∧
    (∀ i r, (txReceiptCallbackOpt i r).isSome = r.isSome) :=
  ⟨fun _ => rfl, fun i r => by cases r <;> rfl⟩

/-- Claim C10: for every block delivered to the block completion handler,
the receipt lookups issued are exactly the longest all-truthy initial
segment of the block's transaction-hash list, in order, each carrying the
label `left` and the hash unchanged. -/
theorem blockCallback_lookups_takeWhile (i : Nat) (b : Block) :
    blockCallback i (some b) =
      (b.transactions.takeWhile JsVal.truthy).map (fun h => ("left", h)) := by
  simpa [blockCallback] using issueLookups_eq_takeWhile b.transactions

/-- Claim C8: the two scripts of `findContracts.js` compute the same
per-block processing — their block handlers and receipt handlers agree on
every input — and differ only in the fixed range scanned: the first issues
exactly one block lookup, labelled `left`, for each `i` with
`116611 ≤ i < 116711`, the second for each `i` with `258728 ≤ i < 258928`,
and neither issues a block lookup outside its range (the lookup lists have
no duplicates, and membership holds exactly for the label `left` and the
range's block numbers). -/
theorem scripts_differ_only_in_range :
    (∀ i res, blockCallback i res = blockCallback2 i res) ∧
    (∀ i r, txReceiptCallback i r = txReceiptCallback2 i r) ∧
    script1BlockLookups.Nodup ∧
    script2BlockLookups.Nodup ∧
    (∀ l i, (l, i) ∈ script1BlockLookups ↔ l = "left" ∧ 116611 ≤ i ∧ i < 116711) ∧
    (∀ l i, (l, i) ∈ script2BlockLookups ↔ l = "left" ∧ 258728 ≤ i ∧ i < 258928) := by
  refine ⟨?_, ?_, ?_, ?_, ?_, ?_⟩
  · intro i res
    cases res with
    | none => rfl
    | some b => simpa [blockCallback, blockCallback2] using
        issueLookups_eq_issueLookups2 b.transactions
  · intro i r; rfl
  · exact List.Nodup.map (fun a b h => by simpa using h) (List.nodup_range' 116611 _)
  · exact List.Nodup.map (fun a b h => by simpa using h) (List.nodup_range' 258728 _)
  · intro l i
    simp only [script1BlockLookups, List.mem_map, List.mem_range'_1, Prod.mk.injEq]
    constructor
    · rintro ⟨a, ha, hl, hi⟩
      exact ⟨hl.symm, by omega⟩
    · rintro ⟨hl, hi⟩
      exact ⟨i, by omega, hl.symm, rfl⟩
  · intro l i
    simp only [script2BlockLookups, List.mem_map, List.mem_range'_1, Prod.mk.injEq]
    constructor
    · rintro ⟨a, ha, hl, hi⟩
      exact ⟨hl.symm, by omega⟩
    · rintro ⟨hl, hi⟩
      exact ⟨i, by omega, hl.symm, rfl⟩
